import Mathlib

/-!
Shallow embedding of the muzloto server's code-redemption and reward-ledger
core (routes `bingo.ts`, `catalog.ts`, `events.ts`, `achievements.ts`,
`admin.ts`, `scanner.ts`, the Telegram webhook purchase-confirmation
handler, and the achievements service), together with theorems settling the
behavioural claims about it.

The persistence layer (Supabase) is modelled as an explicit record of
tables (`DB`); each route handler becomes a pure function from a `DB`
and its request parameters to an updated `DB` paired with a response
value.  Fallible writes are modelled by explicit failure flags: a flag
set to `true` makes the corresponding write return an error exactly as a
failed Supabase call would, at which point the handler aborts (throws),
leaving all previously applied writes in place — mirroring the absence
of transactions in the source.
-/

namespace Muzloto

/-- A row of `profiles` (only the columns the core touches). -/
structure Profile where
  telegram_id : Nat
  balance : Int
deriving Repr, DecidableEq

/-- A row of `user_stats`. -/
structure UserStats where
  telegram_id : Nat
  games_visited : Nat
  tickets_purchased : Nat
  bingo_collected : Nat
  visit_rewards_claimed : Nat
  purchase_reward_1_claimed_at : Option Nat
  purchase_reward_3_claimed_at : Option Nat
  purchase_reward_5_claimed_at : Option Nat
deriving Repr, DecidableEq

/-- A row of `event_prize_codes` (bingo prize codes). -/
structure PrizeCode where
  id : Nat
  code : String
  coins_amount : Int
  used_at : Option Nat
deriving Repr, DecidableEq

/-- A row of `catalog_purchase_codes`. -/
structure PurchaseCode where
  id : Nat
  code : String
  catalog_item_id : String
  used_at : Option Nat
  used_by_telegram_id : Option Nat
deriving Repr, DecidableEq

/-- A row of `catalog`. -/
structure CatalogItem where
  id : String
  price : Int
deriving Repr, DecidableEq

/-- A row of `tickets`. -/
structure Ticket where
  id : Nat
  telegram_id : Nat
  catalog_item_id : String
  code : String
  used_at : Option Nat
deriving Repr, DecidableEq

/-- A row of `events`. -/
structure Event where
  id : String
  code : String
deriving Repr, DecidableEq

/-- A row of `event_teams`. -/
structure EventTeam where
  id : String
  event_id : String
deriving Repr, DecidableEq

/-- A row of `registrations`. -/
structure Registration where
  event_id : String
  telegram_id : Nat
deriving Repr, DecidableEq

/-- A row of the early-variant `codes` table used by the Telegram webhook
(`type` distinguishes registration/purchase codes). -/
structure CodeRow where
  id : Nat
  code : String
  type : String
  catalog_item_id : Option String
  event_id : Option String
  used_at : Option Nat
  owner_telegram_id : Option Nat
deriving Repr, DecidableEq

/-- The persistent state: one field per table the core reads or writes. -/
structure DB where
  profiles : List Profile
  stats : List UserStats
  prizeCodes : List PrizeCode
  purchaseCodes : List PurchaseCode
  catalog : List CatalogItem
  tickets : List Ticket
  events : List Event
  teams : List EventTeam
  registrations : List Registration
  codes : List CodeRow
deriving Repr, DecidableEq

/-- `String.prototype.toUpperCase()` on the underlying character list
(the library `String.toUpper` is equivalent but does not reduce in the
kernel). -/
def toUpperStr (s : String) : String := ⟨s.data.map Char.toUpper⟩

/-- `String.prototype.trim()` on the underlying character list. -/
def trimStr (s : String) : String :=
  ⟨((s.data.dropWhile Char.isWhitespace).reverse.dropWhile
      Char.isWhitespace).reverse⟩

/-- `profiles.select(balance).eq(telegram_id, tid).single()`. -/
def findProfile (db : DB) (tid : Nat) : Option Profile :=
  db.profiles.find? (fun p => p.telegram_id == tid)

/-- `profiles.update(balance).eq(telegram_id, tid)`. -/
def updateBalance (db : DB) (tid : Nat) (b : Int) : DB :=
  { db with
    profiles := db.profiles.map (fun p =>
      if p.telegram_id == tid then { p with balance := b } else p) }

/-- The three counter keys accepted by the `increment_user_stat` RPC. -/
inductive StatKey where
  | games_visited
  | tickets_purchased
  | bingo_collected
deriving Repr, DecidableEq

/-- Increment one counter of a `user_stats` row. -/
def bumpStat (k : StatKey) (s : UserStats) : UserStats :=
  match k with
  | .games_visited => { s with games_visited := s.games_visited + 1 }
  | .tickets_purchased => { s with tickets_purchased := s.tickets_purchased + 1 }
  | .bingo_collected => { s with bingo_collected := s.bingo_collected + 1 }

/-- A fresh `user_stats` row (all counters zero, no claim markers). -/
def emptyStats (tid : Nat) : UserStats :=
  ⟨tid, 0, 0, 0, 0, none, none, none⟩

/-- `incrementUserStat` (services, `increment_user_stat` RPC): bumps the
counter by 1, creating the `user_stats` row on first use. -/
def incrementUserStat (db : DB) (tid : Nat) (k : StatKey) : DB :=
  if (db.stats.find? (fun s => s.telegram_id == tid)).isSome then
    { db with
      stats := db.stats.map (fun s =>
        if s.telegram_id == tid then bumpStat k s else s) }
  else
    { db with stats := db.stats ++ [bumpStat k (emptyStats tid)] }

/-- `checkAndUnlockAchievements` (services/achievements, final evolution):
the achievements table was removed, so the function always returns the
empty result and performs no write. -/
def checkAndUnlockAchievements (db : DB) (_tid : Nat) : DB × Int :=
  (db, 0)

/-- `BINGO_REWARD` (constants): coins for the fixed test bingo code. -/
def BINGO_REWARD : Int := 100

/-- `REWARDS_CONFIG.shop.items` (config/rewards). -/
def shopItems : List (String × Int) :=
  [("extra_card", 25), ("free_ticket", 100)]

/-- `getCatalogItemPrice` (config/rewards): config price override by item
id, `undefined` when the item is not in the config. -/
def getCatalogItemPrice (itemId : String) : Option Int :=
  (shopItems.find? (fun i => i.1 == itemId)).map (fun i => i.2)

/-! ## Bingo claim (`routes/bingo.ts`, prize-code variant) -/

/-- Failure flags for the fallible Supabase calls inside `POST /bingo/claim`. -/
structure BingoFails where
  markUsed : Bool
  profileFetch : Bool
  balanceUpdate : Bool
  incrementStat : Bool
deriving Repr, DecidableEq

/-- All Supabase calls succeed. -/
def noBingoFails : BingoFails := ⟨false, false, false, false⟩

/-- Response of `POST /bingo/claim`. -/
inductive BingoRes where
  | badFormat
  | badPrefixChar
  | notFoundOrUsed
  | internalError
  | ok (newBalance coinsEarned : Int)
deriving Repr, DecidableEq

/-- `event_prize_codes.select(..).eq(code, norm).is(used_at, null).maybeSingle()`. -/
def prizeLookup (db : DB) (norm : String) : Option PrizeCode :=
  db.prizeCodes.find? (fun p => p.code == norm && p.used_at == none)

/-- `event_prize_codes.update(used_at).eq(id, pid)` — unconditional by id,
with no `used_at is null` guard. -/
def prizeMarkUsed (db : DB) (pid : Nat) (now : Nat) : DB :=
  { db with
    prizeCodes := db.prizeCodes.map (fun q =>
      if q.id == pid then { q with used_at := some now } else q) }

/-- Tail of `POST /bingo/claim` after the amount is known: fetch profile,
credit `coinsToAdd`, bump `bingo_collected`, run the (empty) achievement
check. -/
def bingoCredit (f : BingoFails) (db : DB) (tid : Nat) (coinsToAdd : Int) :
    DB × BingoRes :=
  match (if f.profileFetch then none else findProfile db tid) with
  | none => (db, .internalError)
  | some profile =>
    let newBalance := profile.balance + coinsToAdd
    if f.balanceUpdate then (db, .internalError)
    else
      let db1 := updateBalance db tid newBalance
      if f.incrementStat then (db1, .internalError)
      else
        let db2 := incrementUserStat db1 tid .bingo_collected
        let (db3, _) := checkAndUnlockAchievements db2 tid
        (db3, .ok newBalance coinsToAdd)

/-- The branch of `POST /bingo/claim` taken when the prize-code lookup
found an unused row: mark it used (by id), then credit its amount. -/
def bingoCommit (f : BingoFails) (db : DB) (now tid : Nat) (p : PrizeCode) :
    DB × BingoRes :=
  if f.markUsed then (db, .internalError)
  else bingoCredit f (prizeMarkUsed db p.id now) tid p.coins_amount

/-- `POST /bingo/claim` (prize-code variant): validate shape, look up an
unused prize code, mark used and credit; fall back to the fixed test code
`B0000`. -/
def bingoClaim (f : BingoFails) (db : DB) (now tid : Nat) (code : String) :
    DB × BingoRes :=
  if code.length != 5 then (db, .badFormat)
  else
    let norm := toUpperStr code
    if norm.front != 'B' then (db, .badPrefixChar)
    else
      match prizeLookup db norm with
      | some p => bingoCommit f db now tid p
      | none =>
        if norm != "B0000" then (db, .notFoundOrUsed)
        else bingoCredit f db tid BINGO_REWARD

/-! ## Catalog (`routes/catalog.ts`) -/

/-- `normalizePurchaseCode`: trim + uppercase; accept `C` + 5 alphanumerics
or 5 bare alphanumerics (prefixed with `C`); otherwise no code. -/
def normalizePurchaseCode (input : String) : Option String :=
  let t := toUpperStr (trimStr input)
  let alnum := t.data.all (fun c => ('A' ≤ c && c ≤ 'Z') || ('0' ≤ c && c ≤ '9'))
  if t.length == 6 && t.front == 'C' && alnum then some t
  else if t.length == 5 && alnum then some ("C".append t)
  else none

/-- One pass of the ticket-insert retry loop of `/purchase` and
`/redeem-purchase-code`: attempt `i` inserts candidate `gen i`; a
uniqueness violation (code `23505`, modelled as an existing ticket with
the same code) regenerates and retries, any other insert error
(`failInsert`) throws, and running out of the 10 attempts throws.
Returns the inserted ticket's code, or `none` for a thrown error. -/
def ticketInsertAttempts (db : DB) (tid : Nat) (itemId : String)
    (gen : Nat → String) (failInsert : Bool) : Nat → Nat → DB × Option String
  | _, 0 => (db, none)
  | i, fuel + 1 =>
    let c := gen i
    if failInsert then (db, none)
    else if db.tickets.any (fun t => t.code == c) then
      ticketInsertAttempts db tid itemId gen failInsert (i + 1) fuel
    else
      ({ db with
         tickets := db.tickets ++ [⟨db.tickets.length, tid, itemId, c, none⟩] },
       some c)

/-- Failure flags for the fallible writes of `/redeem-purchase-code`
(and `/purchase`, which uses the first two). -/
structure RedeemFails where
  debit : Bool
  ticketInsert : Bool
  markUsed : Bool
deriving Repr, DecidableEq

/-- All Supabase calls succeed. -/
def noRedeemFails : RedeemFails := ⟨false, false, false⟩

/-- Response of `POST /catalog/redeem-purchase-code`. -/
inductive RedeemRes where
  | badFormat
  | codeNotFound
  | codeAlreadyUsed
  | itemNotFound
  | profileNotFound
  | insufficientBalance
  | internalError
  | ok (ticketCode : String) (newBalance : Int)
deriving Repr, DecidableEq

/-- `POST /catalog/redeem-purchase-code`: normalize, look up the purchase
code, reject used codes, resolve the item and price, check the balance,
debit, insert a ticket, and only then mark the code used and bump the
purchase counter. -/
def redeemPurchaseCode (f : RedeemFails) (db : DB) (now tid : Nat)
    (raw : String) (gen : Nat → String) : DB × RedeemRes :=
  match normalizePurchaseCode raw with
  | none => (db, .badFormat)
  | some code =>
    match db.purchaseCodes.find? (fun r => r.code == code) with
    | none => (db, .codeNotFound)
    | some row =>
      if row.used_at.isSome then (db, .codeAlreadyUsed)
      else
        match db.catalog.find? (fun i => i.id == row.catalog_item_id) with
        | none => (db, .itemNotFound)
        | some item =>
          let price := (getCatalogItemPrice item.id).getD item.price
          match findProfile db tid with
          | none => (db, .profileNotFound)
          | some profile =>
            if profile.balance < price then (db, .insufficientBalance)
            else
              let newBalance := profile.balance - price
              if f.debit then (db, .internalError)
              else
                let db1 := updateBalance db tid newBalance
                match ticketInsertAttempts db1 tid item.id gen f.ticketInsert 0 10 with
                | (db1e, none) => (db1e, .internalError)
                | (db2, some tcode) =>
                  if f.markUsed then (db2, .internalError)
                  else
                    let db3 := { db2 with
                      purchaseCodes := db2.purchaseCodes.map (fun q =>
                        if q.id == row.id then
                          { q with used_at := some now,
                                   used_by_telegram_id := some tid }
                        else q) }
                    let db4 := incrementUserStat db3 tid .tickets_purchased
                    let (db5, _) := checkAndUnlockAchievements db4 tid
                    (db5, .ok tcode newBalance)

/-- Response of `POST /catalog/purchase`. -/
inductive PurchaseRes where
  | badRequest
  | itemNotFound
  | profileNotFound
  | insufficientBalance
  | internalError
  | ok (ticketCode : String) (newBalance : Int)
deriving Repr, DecidableEq

/-- `POST /catalog/purchase`: resolve the item and price, check the
balance, debit, then insert the ticket through the bounded retry loop
(exhausting it throws, after the debit). -/
def purchase (f : RedeemFails) (db : DB) (tid : Nat) (itemId : String)
    (gen : Nat → String) : DB × PurchaseRes :=
  if itemId == "" then (db, .badRequest)
  else
    match db.catalog.find? (fun i => i.id == itemId) with
    | none => (db, .itemNotFound)
    | some item =>
      let price := (getCatalogItemPrice itemId).getD item.price
      match findProfile db tid with
      | none => (db, .profileNotFound)
      | some profile =>
        if profile.balance < price then (db, .insufficientBalance)
        else
          let newBalance := profile.balance - price
          if f.debit then (db, .internalError)
          else
            let db1 := updateBalance db tid newBalance
            match ticketInsertAttempts db1 tid item.id gen f.ticketInsert 0 10 with
            | (db1e, none) => (db1e, .internalError)
            | (db2, some tcode) =>
              let db3 := incrementUserStat db2 tid .tickets_purchased
              let (db4, _) := checkAndUnlockAchievements db3 tid
              (db4, .ok tcode newBalance)

/-! ## Events (`routes/events.ts`) -/

/-- `REGISTRATION_REWARD` (constants = `getVisitReward()` =
`REWARDS_CONFIG.visit_rewards.per_visit` in config/rewards). -/
def REGISTRATION_REWARD : Int := 5

/-- `applyVisitReward` (routes/events.ts): credit the per-visit reward,
bump `games_visited`, run the (empty) achievement check.  `none` models a
thrown error (missing profile). -/
def applyVisitReward (db : DB) (tid : Nat) : DB × Option (Int × Int) :=
  match findProfile db tid with
  | none => (db, none)
  | some profile =>
    let newBalance := profile.balance + REGISTRATION_REWARD
    let db1 := updateBalance db tid newBalance
    let db2 := incrementUserStat db1 tid .games_visited
    let (db3, _) := checkAndUnlockAchievements db2 tid
    (db3, some (newBalance, REGISTRATION_REWARD))

/-- The optional-team validation of `POST /events/register`: a supplied
`team_id` must reference a team of the same event. -/
def teamOkFor (db : DB) (evId : String) (team_id : Option String) : Bool :=
  match team_id with
  | none => true
  | some t => db.teams.any (fun w => w.id == t && w.event_id == evId)

/-- Response of `POST /events/register`. -/
inductive RegisterRes where
  | badFormat
  | eventNotFound
  | alreadyRegistered409
  | teamNotFound
  | internalError
  | ok (eventId : String) (newBalance coinsEarned : Int)
deriving Repr, DecidableEq

/-- `POST /events/register`: validate shape, handle the test code
`00000`, look up the event by code, reject a duplicate registration with
HTTP 409, validate the optional team, insert the registration row, then
apply the visit reward. -/
def registerEvent (db : DB) (tid : Nat) (code : String)
    (team_id : Option String) : DB × RegisterRes :=
  if code.length != 5 then (db, .badFormat)
  else
    let norm := toUpperStr code
    if norm == "00000" then
      match applyVisitReward db tid with
      | (db1, some (nb, ce)) => (db1, .ok "test" nb ce)
      | (db1, none) => (db1, .internalError)
    else
      match db.events.find? (fun e => e.code == norm) with
      | none => (db, .eventNotFound)
      | some ev =>
        if db.registrations.any (fun r =>
            r.event_id == ev.id && r.telegram_id == tid) then
          (db, .alreadyRegistered409)
        else
          if !teamOkFor db ev.id team_id then (db, .teamNotFound)
          else
            let db1 := { db with
              registrations := db.registrations ++ [⟨ev.id, tid⟩] }
            match applyVisitReward db1 tid with
            | (db2, some (nb, ce)) => (db2, .ok ev.id nb ce)
            | (db2, none) => (db2, .internalError)

/-! ## Code issuance retry loops (`routes/admin.ts`, `routes/events.ts`) -/

/-- The check-then-regenerate loop shared by event-code creation
(`POST /admin/events`, 30 attempts) and prize-code creation
(`POST /events/:eventId/prize-codes`, 50 attempts): candidate `gen i` is
kept as soon as the existence check `ex` clears it; each failed check
regenerates; when the fuel runs out the CURRENT (never-checked) candidate
is returned as-is. -/
def eventCodeLoop (gen : Nat → String) (ex : String → Bool) :
    Nat → Nat → String
  | i, 0 => gen i
  | i, fuel + 1 => if ex (gen i) then eventCodeLoop gen ex (i + 1) fuel else gen i

/-- The event-code retry loop of `POST /admin/events` (30 attempts
against `events.code`). -/
def generateUniqueEventCode (db : DB) (gen : Nat → String) : String :=
  eventCodeLoop gen (fun c => db.events.any (fun e => e.code == c)) 0 30

/-- `POST /admin/events` (code-relevant tail): run the retry loop, then
insert the event with whatever code the loop produced — there is no
post-loop uniqueness failure. -/
def createEvent (db : DB) (gen : Nat → String) (eid : String) : DB × String :=
  let code := generateUniqueEventCode db gen
  ({ db with events := db.events ++ [⟨eid, code⟩] }, code)

/-- The prize-code retry loop of `POST /events/:eventId/prize-codes`
(50 attempts against both `event_prize_codes.code` and `tickets.code`),
followed by the unconditional insert. -/
def createPrizeCode (db : DB) (gen : Nat → String) (pid : Nat)
    (coinsAmount : Int) : DB × String :=
  let code := eventCodeLoop gen
    (fun c => db.prizeCodes.any (fun p => p.code == c)
      || db.tickets.any (fun t => t.code == c)) 0 50
  ({ db with prizeCodes := db.prizeCodes ++ [⟨pid, code, coinsAmount, none⟩] },
   code)

/-! ## Visit reward claim (`routes/achievements.ts`) -/

/-- `VISIT_REWARD_EVERY` (constants; also the local constant 5 in the
earlier achievements route): the repeating-reward interval. -/
def VISIT_REWARD_EVERY : Int := 5

/-- Response of `POST /achievements/claim-visit-reward`. -/
inductive VisitClaimRes where
  | statsNotFound
  | noReward
  | profileNotFound
  | ok (coinsAdded newBalance : Int)
deriving Repr, DecidableEq

/-- `POST /achievements/claim-visit-reward`: compute
`games_visited - visit_rewards_claimed * 5`, reject when below 5, else
credit the reward and increment `visit_rewards_claimed` by 1.  `coins`
stands for `VISIT_REWARD_COINS`, imported from a constants module that is
not part of the sources; no claim depends on its value. -/
def claimVisitReward (coins : Int) (db : DB) (tid : Nat) : DB × VisitClaimRes :=
  match db.stats.find? (fun s => s.telegram_id == tid) with
  | none => (db, .statsNotFound)
  | some stats =>
    let progress : Int :=
      (stats.games_visited : Int) - (stats.visit_rewards_claimed : Int) * VISIT_REWARD_EVERY
    if progress < VISIT_REWARD_EVERY then (db, .noReward)
    else
      match findProfile db tid with
      | none => (db, .profileNotFound)
      | some profile =>
        let newBalance := profile.balance + coins
        let db1 := updateBalance db tid newBalance
        let db2 := { db1 with
          stats := db1.stats.map (fun s =>
            if s.telegram_id == tid then
              { s with visit_rewards_claimed := s.visit_rewards_claimed + 1 }
            else s) }
        (db2, .ok coins newBalance)

/-! ## Purchase achievement rewards (`services/achievements.ts`) -/

/-- The per-threshold check local to `grantPurchaseAchievementRewards`
(`check` in the source): the configured reward, when the threshold is
reached and its marker still null. -/
def purchaseRewardCheck (rewards : Nat → Option Int) (tp threshold : Nat)
    (claimedAt : Option Nat) : Option Int :=
  match rewards threshold with
  | some c => if tp ≥ threshold && claimedAt == none then some c else none
  | none => none

/-- `grantPurchaseAchievementRewards`: check all three purchase
thresholds (1, 3, 5); pay the sum of the configured rewards for
thresholds reached and not yet claimed, marking each of them claimed;
return `(0, none)` (no write at all) when nothing is payable or any read
fails.  `rewards` stands for `PURCHASE_ACHIEVEMENT_REWARDS`, a constants
map not part of the sources; the claims do not depend on its values. -/
def grantPurchaseAchievementRewards (rewards : Nat → Option Int) (db : DB)
    (now tid : Nat) : DB × (Int × Option Int) :=
  match db.stats.find? (fun s => s.telegram_id == tid) with
  | none => (db, (0, none))
  | some stats =>
    let tp := stats.tickets_purchased
    let c1 := purchaseRewardCheck rewards tp 1 stats.purchase_reward_1_claimed_at
    let c3 := purchaseRewardCheck rewards tp 3 stats.purchase_reward_3_claimed_at
    let c5 := purchaseRewardCheck rewards tp 5 stats.purchase_reward_5_claimed_at
    let totalCoins := c1.getD 0 + c3.getD 0 + c5.getD 0
    if totalCoins == 0 then (db, (0, none))
    else
      match findProfile db tid with
      | none => (db, (0, none))
      | some profile =>
        let newBalance := profile.balance + totalCoins
        let db1 := updateBalance db tid newBalance
        let db2 := { db1 with
          stats := db1.stats.map (fun s =>
            if s.telegram_id == tid then
              { s with
                purchase_reward_1_claimed_at :=
                  if c1.isSome then some now else s.purchase_reward_1_claimed_at,
                purchase_reward_3_claimed_at :=
                  if c3.isSome then some now else s.purchase_reward_3_claimed_at,
                purchase_reward_5_claimed_at :=
                  if c5.isSome then some now else s.purchase_reward_5_claimed_at }
            else s) }
        (db2, (totalCoins, some newBalance))

/-! ## Staff scanner (`routes/scanner.ts`) -/

/-- Failure flags for the fallible Supabase calls inside `POST /scanner/scan`. -/
structure ScanFails where
  profileFetch : Bool
  itemFetch : Bool
  update : Bool
deriving Repr, DecidableEq

/-- All Supabase calls succeed. -/
def noScanFails : ScanFails := ⟨false, false, false⟩

/-- Response of `POST /scanner/scan`. -/
inductive ScanRes where
  | badFormat
  | ticketNotFound
  | ticketAlreadyUsed
  | participantLoadError
  | itemLoadError
  | updateError
  | ok (ownerId : Nat) (itemId : String)
deriving Repr, DecidableEq

/-- `POST /scanner/scan`: normalize, look up the ticket, reject used
tickets, load the owner profile and the catalog item (failing the
request on either), and only then set `used_at`. -/
def scannerScan (f : ScanFails) (db : DB) (now : Nat) (code : String) :
    DB × ScanRes :=
  let codeStr := toUpperStr (trimStr code)
  if codeStr.length != 5 then (db, .badFormat)
  else
    match db.tickets.find? (fun t => t.code == codeStr) with
    | none => (db, .ticketNotFound)
    | some t =>
      if t.used_at.isSome then (db, .ticketAlreadyUsed)
      else
        match (if f.profileFetch then none else findProfile db t.telegram_id) with
        | none => (db, .participantLoadError)
        | some profile =>
          match (if f.itemFetch then none
                 else db.catalog.find? (fun i => i.id == t.catalog_item_id)) with
          | none => (db, .itemLoadError)
          | some item =>
            if f.update then (db, .updateError)
            else
              let db1 := { db with
                tickets := db.tickets.map (fun u =>
                  if u.id == t.id then { u with used_at := some now } else u) }
              (db1, .ok profile.telegram_id item.id)

/-! ## Telegram webhook purchase confirmation (`telegram-webhook`) -/

/-- Response of the webhook `buy_XXXXX` callback handler. -/
inductive WebhookPurchaseRes where
  | invalidCode
  | codeInvalidOrUsed
  | itemNotFound
  | insufficientOrMissingProfile
  | ok (newBalance : Int)
deriving Repr, DecidableEq

/-- Webhook `CONFIRM_PURCHASE` callback: validate the 5-digit code,
look up the `codes` row of type `purchase`, reject missing/used codes,
load the item, check the balance against the price before debiting,
then debit, mark the code used, and bump the purchase counter. -/
def webhookConfirmPurchase (db : DB) (now tid : Nat) (codeDigits : String) :
    DB × WebhookPurchaseRes :=
  if codeDigits.length != 5 || !codeDigits.data.all Char.isDigit then
    (db, .invalidCode)
  else
    match db.codes.find? (fun c => c.code == codeDigits && c.type == "purchase") with
    | none => (db, .codeInvalidOrUsed)
    | some row =>
      match row.catalog_item_id with
      | none => (db, .codeInvalidOrUsed)
      | some itemId =>
        if row.used_at.isSome then (db, .codeInvalidOrUsed)
        else
          match db.catalog.find? (fun i => i.id == itemId) with
          | none => (db, .itemNotFound)
          | some item =>
            let price := item.price
            match findProfile db tid with
            | none => (db, .insufficientOrMissingProfile)
            | some profile =>
              if profile.balance < price then
                (db, .insufficientOrMissingProfile)
              else
                let newBalance := profile.balance - price
                let db1 := updateBalance db tid newBalance
                let db2 := { db1 with
                  codes := db1.codes.map (fun q =>
                    if q.id == row.id then
                      { q with used_at := some now,
                               owner_telegram_id := some tid }
                    else q) }
                let db3 := incrementUserStat db2 tid .tickets_purchased
                let (db4, _) := checkAndUnlockAchievements db3 tid
                (db4, .ok newBalance)

/-! ## Helper lemmas -/

/-- `find?` commutes with a map that does not change the predicate. -/
theorem find?_map_invariant {α : Type} (g : α → α) (p : α → Bool)
    (h : ∀ a, p (g a) = p a) (l : List α) :
    (l.map g).find? p = (l.find? p).map g := by
  induction l with
  | nil => rfl
  | cons a l ih =>
    cases hpa : p a with
    | true =>
      rw [List.map_cons, List.find?_cons_of_pos _ ((h a).trans hpa),
        List.find?_cons_of_pos _ hpa, Option.map_some']
    | false =>
      rw [List.map_cons, List.find?_cons_of_neg _ (by simp [h a, hpa]),
        List.find?_cons_of_neg _ (by simp [hpa]), ih]

/-- An empty database, used as the base of concrete scenarios. -/
def emptyDB : DB := ⟨[], [], [], [], [], [], [], [], [], []⟩

/-- C3: two concurrent claims of prize code `B2345` interleave as
read/read/commit/commit (the handler's own phases `prizeLookup` and
`bingoCommit`): both reads see the unused row because the guard is a
plain read, both commits then succeed because `prizeMarkUsed` updates by
id with no `used_at IS NULL` condition, and both users are credited —
double credit, contradicting "exactly one succeeds". -/
theorem bingoClaim_concurrent_double_credit :
    let db0 : DB := { emptyDB with
      profiles := [⟨10, 0⟩, ⟨20, 0⟩],
      prizeCodes := [⟨1, "B2345", 100, none⟩] }
    let p : PrizeCode := ⟨1, "B2345", 100, none⟩
    prizeLookup db0 "B2345" = some p ∧
    prizeLookup db0 "B2345" = some p ∧
    (bingoCommit noBingoFails db0 7 10 p).2 = .ok 100 100 ∧
    (bingoCommit noBingoFails (bingoCommit noBingoFails db0 7 10 p).1 7 20 p).2
      = .ok 100 100 ∧
    findProfile (bingoCommit noBingoFails (bingoCommit noBingoFails db0 7 10 p).1 7 20 p).1 10
      = some ⟨10, 100⟩ ∧
    findProfile (bingoCommit noBingoFails (bingoCommit noBingoFails db0 7 10 p).1 7 20 p).1 20
      = some ⟨20, 100⟩ := by
  decide

/-- C8 counterexample: a user with 12 visits and 0 claimed rewards claims
the visit reward twice with no new visits.  The first claim succeeds
(progress 12 drops to 7), but the immediate second claim also succeeds
(7 ≥ 5), refuting "an immediate second claim with no new visits fails
with insufficient progress". -/
theorem claimVisitReward_second_claim_succeeds :
    let db : DB := { emptyDB with
      profiles := [⟨1, 0⟩],
      stats := [⟨1, 12, 0, 0, 0, none, none, none⟩] }
    (claimVisitReward 30 db 1).2 = .ok 30 30 ∧
    (claimVisitReward 30 (claimVisitReward 30 db 1).1 1).2 = .ok 30 60 := by
  decide

/-- C7 counterexample: event creation with every generated candidate
equal to the already-stored code `AAAAA` exhausts its 30 uniqueness
checks and then succeeds anyway, storing a second event with the same
colliding code — a silent fallback, not a hard
CodeGenerationExhausted-style failure. -/
theorem createEvent_exhaustion_stores_colliding_code :
    let db : DB := { emptyDB with events := [⟨"e1", "AAAAA"⟩] }
    createEvent db (fun _ => "AAAAA") "e2"
      = ({ db with events := [⟨"e1", "AAAAA"⟩, ⟨"e2", "AAAAA"⟩] }, "AAAAA") := by
  decide

/-- C2: redemption is not atomic.  When the balance-update write fails
right after the mark-used write (failure flags `⟨false, false, true,
false⟩`), `POST /bingo/claim` returns an internal error with the prize
code already marked used and the profiles table untouched: the "used"
flag persists without the paired balance mutation. -/
theorem bingoClaim_marks_used_without_credit
    (db : DB) (now tid : Nat) (code : String) (p : PrizeCode)
    (hlen : code.length = 5)
    (hfront : (toUpperStr code).front = 'B')
    (hfind : prizeLookup db (toUpperStr code) = some p) :
    bingoClaim ⟨false, false, true, false⟩ db now tid code
      = (prizeMarkUsed db p.id now, .internalError) ∧
    (prizeMarkUsed db p.id now).profiles = db.profiles ∧
    ∃ q ∈ (prizeMarkUsed db p.id now).prizeCodes, q.used_at = some now := by
  refine ⟨?_, rfl, ?_⟩
  · simp only [bingoClaim, hlen, hfront, hfind, bingoCommit, bingoCredit,
      bne_self_eq_false, Bool.false_eq_true, if_false]
    cases hp : findProfile (prizeMarkUsed db p.id now) tid <;> simp [hp]
  · have hmem : p ∈ db.prizeCodes := by
      have := List.mem_of_find?_eq_some hfind
      exact this
    refine ⟨{ p with used_at := some now }, ?_, rfl⟩
    simp only [prizeMarkUsed]
    exact List.mem_map.mpr ⟨p, hmem, by simp⟩

/-- Closed witness for `bingoClaim_marks_used_without_credit`. -/
theorem bingoClaim_marks_used_without_credit_witness :
    let db : DB := { emptyDB with
      profiles := [⟨10, 0⟩], prizeCodes := [⟨1, "B2345", 100, none⟩] }
    bingoClaim ⟨false, false, true, false⟩ db 7 10 "B2345"
      = (prizeMarkUsed db 1 7, .internalError) ∧
    (prizeMarkUsed db 1 7).profiles = db.profiles ∧
    ∃ q ∈ (prizeMarkUsed db 1 7).prizeCodes, q.used_at = some 7 := by
  exact bingoClaim_marks_used_without_credit _ 7 10 "B2345"
    ⟨1, "B2345", 100, none⟩ (by decide) (by decide) (by decide)

/-- C10: `POST /scanner/scan` marks the ticket used only after the ticket
was found unused AND both the owner profile and the catalog item loaded
successfully (and the final update write itself succeeds); every other
outcome returns an error and leaves the database — in particular the
ticket's `used_at` — exactly as it was. -/
theorem scannerScan_marks_used_only_after_loads
    (f : ScanFails) (db : DB) (now : Nat) (code : String) :
    (∀ oid iid, (scannerScan f db now code).2 = .ok oid iid →
      ∃ t, db.tickets.find? (fun x => x.code == toUpperStr (trimStr code)) = some t ∧
        t.used_at = none ∧
        (if f.profileFetch then none else findProfile db t.telegram_id).isSome ∧
        (if f.itemFetch then none
         else db.catalog.find? (fun i => i.id == t.catalog_item_id)).isSome ∧
        f.update = false ∧
        (scannerScan f db now code).1
          = { db with tickets := db.tickets.map (fun u =>
              if u.id == t.id then { u with used_at := some now } else u) }) ∧
    ((∀ oid iid, (scannerScan f db now code).2 ≠ .ok oid iid) →
      (scannerScan f db now code).1 = db) := by
  cases hlen : ((toUpperStr (trimStr code)).length != 5) with
  | true => refine ⟨?_, ?_⟩ <;> simp [scannerScan, hlen]
  | false =>
  rcases hT : db.tickets.find? (fun t => t.code == toUpperStr (trimStr code)) with _ | t
  · refine ⟨?_, ?_⟩ <;> simp [scannerScan, hlen, hT]
  · cases hU : t.used_at.isSome with
    | true => refine ⟨?_, ?_⟩ <;> simp [scannerScan, hlen, hT, hU]
    | false =>
    rcases hP : (if f.profileFetch then none else findProfile db t.telegram_id)
      with _ | profile
    · refine ⟨?_, ?_⟩ <;> simp [scannerScan, hlen, hT, hU, hP]
    · rcases hI : (if f.itemFetch then none
          else db.catalog.find? (fun i => i.id == t.catalog_item_id)) with _ | item
      · refine ⟨?_, ?_⟩ <;> simp [scannerScan, hlen, hT, hU, hP, hI]
      · cases hF : f.update with
        | true => refine ⟨?_, ?_⟩ <;> simp [scannerScan, hlen, hT, hU, hP, hI, hF]
        | false =>
          refine ⟨?_, ?_⟩
          · intro oid iid _
            refine ⟨t, hT, ?_, by simp [hP], by simp [hI], rfl, ?_⟩
            · cases h : t.used_at with
              | none => rfl
              | some v => rw [h] at hU; simp at hU
            · simp [scannerScan, hlen, hT, hU, hP, hI, hF]
          · intro hne
            exfalso
            exact hne profile.telegram_id item.id
              (by simp [scannerScan, hlen, hT, hU, hP, hI, hF])

/-- Closed witness for `scannerScan_marks_used_only_after_loads`: scanning
an already-used ticket leaves the database unchanged. -/
theorem scannerScan_marks_used_only_after_loads_witness :
    (scannerScan noScanFails
      { emptyDB with
        tickets := [⟨1, 10, "extra_card", "TCKT1", some 3⟩],
        profiles := [⟨10, 0⟩],
        catalog := [⟨"extra_card", 25⟩] } 9 "TCKT1").1
      = { emptyDB with
          tickets := [⟨1, 10, "extra_card", "TCKT1", some 3⟩],
          profiles := [⟨10, 0⟩],
          catalog := [⟨"extra_card", 25⟩] } := by
  apply (scannerScan_marks_used_only_after_loads noScanFails _ 9 "TCKT1").2
  intro oid iid hok
  rw [show (scannerScan noScanFails
      { emptyDB with
        tickets := [⟨1, 10, "extra_card", "TCKT1", some 3⟩],
        profiles := [⟨10, 0⟩],
        catalog := [⟨"extra_card", 25⟩] } 9 "TCKT1").2 = .ticketAlreadyUsed
    from by decide] at hok
  exact ScanRes.noConfusion hok

/-- C5: a purchase whose price exceeds the user's balance fails with the
insufficient-balance error and leaves the database completely unchanged —
for the direct `/purchase` route and for `/redeem-purchase-code`, where in
particular the purchase code's `used_at` stays null. -/
theorem insufficient_balance_no_mutation
    (f : RedeemFails) (db : DB) (now tid : Nat) (gen : Nat → String) :
    (∀ itemId item profile,
      itemId ≠ "" →
      db.catalog.find? (fun i => i.id == itemId) = some item →
      findProfile db tid = some profile →
      profile.balance < (getCatalogItemPrice itemId).getD item.price →
      purchase f db tid itemId gen = (db, .insufficientBalance)) ∧
    (∀ raw code row item profile,
      normalizePurchaseCode raw = some code →
      db.purchaseCodes.find? (fun r => r.code == code) = some row →
      row.used_at = none →
      db.catalog.find? (fun i => i.id == row.catalog_item_id) = some item →
      findProfile db tid = some profile →
      profile.balance < (getCatalogItemPrice item.id).getD item.price →
      redeemPurchaseCode f db now tid raw gen = (db, .insufficientBalance)) := by
  constructor
  · intro itemId item profile hne hitem hprof hlt
    have hid : (itemId == "") = false := by
      simp [hne]
    simp [purchase, hid, hitem, hprof, hlt]
  · intro raw code row item profile hnorm hrow hused hitem hprof hlt
    simp [redeemPurchaseCode, hnorm, hrow, hused, hitem, hprof, hlt]

/-- Closed witness for `insufficient_balance_no_mutation`: redeeming a
purchase code for a 100-coin item with a 40-coin balance fails without
mutation. -/
theorem insufficient_balance_no_mutation_witness :
    redeemPurchaseCode noRedeemFails
      { emptyDB with
        purchaseCodes := [⟨1, "CQQQQQ", "free_ticket", none, none⟩],
        catalog := [⟨"free_ticket", 100⟩],
        profiles := [⟨10, 40⟩] } 7 10 "CQQQQQ" (fun _ => "TCKT1")
      = ({ emptyDB with
           purchaseCodes := [⟨1, "CQQQQQ", "free_ticket", none, none⟩],
           catalog := [⟨"free_ticket", 100⟩],
           profiles := [⟨10, 40⟩] }, .insufficientBalance) := by
  exact (insufficient_balance_no_mutation noRedeemFails _ 7 10 _).2
    "CQQQQQ" "CQQQQQ" ⟨1, "CQQQQQ", "free_ticket", none, none⟩
    ⟨"free_ticket", 100⟩ ⟨10, 40⟩ (by decide) (by decide) rfl (by decide)
    (by decide) (by decide)

/-- `updateBalance` touches only `profiles`. -/
@[simp] theorem updateBalance_events (db : DB) (tid : Nat) (b : Int) :
    (updateBalance db tid b).events = db.events := rfl

@[simp] theorem updateBalance_registrations (db : DB) (tid : Nat) (b : Int) :
    (updateBalance db tid b).registrations = db.registrations := rfl

@[simp] theorem updateBalance_stats (db : DB) (tid : Nat) (b : Int) :
    (updateBalance db tid b).stats = db.stats := rfl

@[simp] theorem updateBalance_prizeCodes (db : DB) (tid : Nat) (b : Int) :
    (updateBalance db tid b).prizeCodes = db.prizeCodes := rfl

@[simp] theorem updateBalance_purchaseCodes (db : DB) (tid : Nat) (b : Int) :
    (updateBalance db tid b).purchaseCodes = db.purchaseCodes := rfl

@[simp] theorem updateBalance_tickets (db : DB) (tid : Nat) (b : Int) :
    (updateBalance db tid b).tickets = db.tickets := rfl

@[simp] theorem updateBalance_catalog (db : DB) (tid : Nat) (b : Int) :
    (updateBalance db tid b).catalog = db.catalog := rfl

/-- `incrementUserStat` touches only `stats`. -/
@[simp] theorem incrementUserStat_events (db : DB) (tid : Nat) (k : StatKey) :
    (incrementUserStat db tid k).events = db.events := by
  unfold incrementUserStat; split <;> rfl

@[simp] theorem incrementUserStat_registrations (db : DB) (tid : Nat) (k : StatKey) :
    (incrementUserStat db tid k).registrations = db.registrations := by
  unfold incrementUserStat; split <;> rfl

@[simp] theorem incrementUserStat_profiles (db : DB) (tid : Nat) (k : StatKey) :
    (incrementUserStat db tid k).profiles = db.profiles := by
  unfold incrementUserStat; split <;> rfl

@[simp] theorem incrementUserStat_prizeCodes (db : DB) (tid : Nat) (k : StatKey) :
    (incrementUserStat db tid k).prizeCodes = db.prizeCodes := by
  unfold incrementUserStat; split <;> rfl

@[simp] theorem incrementUserStat_purchaseCodes (db : DB) (tid : Nat) (k : StatKey) :
    (incrementUserStat db tid k).purchaseCodes = db.purchaseCodes := by
  unfold incrementUserStat; split <;> rfl

@[simp] theorem incrementUserStat_tickets (db : DB) (tid : Nat) (k : StatKey) :
    (incrementUserStat db tid k).tickets = db.tickets := by
  unfold incrementUserStat; split <;> rfl

@[simp] theorem incrementUserStat_catalog (db : DB) (tid : Nat) (k : StatKey) :
    (incrementUserStat db tid k).catalog = db.catalog := by
  unfold incrementUserStat; split <;> rfl

/-- C6: registering twice for the same event succeeds exactly once.  The
first request inserts the single registration row and pays the visit
reward; the second request returns HTTP 409 and leaves the database —
balance and counters included — exactly as the first request left it. -/
theorem register_twice_second_attempt_409
    (db : DB) (tid : Nat) (code : String) (team_id : Option String)
    (ev : Event) (profile : Profile)
    (hlen : code.length = 5)
    (hnot0 : toUpperStr code ≠ "00000")
    (hev : db.events.find? (fun e => e.code == toUpperStr code) = some ev)
    (hnone : db.registrations.any
        (fun r => r.event_id == ev.id && r.telegram_id == tid) = false)
    (hteam : teamOkFor db ev.id team_id = true)
    (hprof : findProfile db tid = some profile) :
    ∃ db1,
      registerEvent db tid code team_id
        = (db1, .ok ev.id (profile.balance + REGISTRATION_REWARD)
            REGISTRATION_REWARD) ∧
      db1.registrations.countP
        (fun r => r.event_id == ev.id && r.telegram_id == tid) = 1 ∧
      registerEvent db1 tid code team_id = (db1, .alreadyRegistered409) := by
  have hinsP : findProfile { db with
      registrations := db.registrations ++ [⟨ev.id, tid⟩] } tid
      = some profile := hprof
  have hn0 : (toUpperStr code == "00000") = false := by
    simp [hnot0]
  have hlen' : (code.length != 5) = false := by simp [hlen]
  refine ⟨incrementUserStat
      (updateBalance { db with
        registrations := db.registrations ++ [⟨ev.id, tid⟩] } tid
        (profile.balance + REGISTRATION_REWARD)) tid .games_visited,
    ?_, ?_, ?_⟩
  · simp [registerEvent, applyVisitReward, checkAndUnlockAchievements,
      hlen', hn0, hev, hnone, hteam, hinsP]
  · have hzero : db.registrations.countP
        (fun r => r.event_id == ev.id && r.telegram_id == tid) = 0 := by
      refine List.countP_eq_zero.mpr ?_
      intro r hr
      have := List.any_eq_false.mp hnone r hr
      simpa using this
    simp [hzero, List.countP_append, List.countP_cons]
  · have hany : (db.registrations ++ [(⟨ev.id, tid⟩ : Registration)]).any
        (fun r => r.event_id == ev.id && r.telegram_id == tid) = true := by
      simp
    simp [registerEvent, hlen', hn0, hev, hany]

/-- Closed witness for `register_twice_second_attempt_409`. -/
theorem register_twice_second_attempt_409_witness :
    ∃ db1,
      registerEvent { emptyDB with
          events := [⟨"e1", "GAMES"⟩], profiles := [⟨10, 0⟩] }
        10 "GAMES" none
        = (db1, .ok "e1" ((0 : Int) + REGISTRATION_REWARD) REGISTRATION_REWARD) ∧
      db1.registrations.countP
        (fun r => r.event_id == "e1" && r.telegram_id == 10) = 1 ∧
      registerEvent db1 10 "GAMES" none = (db1, .alreadyRegistered409) := by
  exact register_twice_second_attempt_409 _ 10 "GAMES" none ⟨"e1", "GAMES"⟩
    ⟨10, 0⟩ (by decide) (by decide) (by decide) (by decide) (by decide)
    (by decide)

/-- Updating the row keyed by `telegram_id == tid` preserves a `find?`
for the same key, returning the updated row. -/
theorem find?_update_stats (l : List UserStats) (tid : Nat) (stats : UserStats)
    (h : l.find? (fun s => s.telegram_id == tid) = some stats)
    (g : UserStats → UserStats) (hg : ∀ s, (g s).telegram_id = s.telegram_id) :
    (l.map (fun s => if s.telegram_id == tid then g s else s)).find?
      (fun s => s.telegram_id == tid) = some (g stats) := by
  rw [find?_map_invariant _ _ (fun a => by
    by_cases hm : (a.telegram_id == tid) = true
    · simp [hm, hg]
    · simp [hm])]
  rw [h, Option.map_some']
  have := List.find?_some h
  simp only at this
  rw [if_pos this]

/-- `findProfile` after `updateBalance` for the same user returns the
profile with the new balance. -/
theorem findProfile_updateBalance (db : DB) (tid : Nat) (profile : Profile)
    (h : findProfile db tid = some profile) (b : Int) :
    findProfile (updateBalance db tid b) tid
      = some { profile with balance := b } := by
  show (db.profiles.map fun p =>
      if p.telegram_id == tid then { p with balance := b } else p).find?
      (fun p => p.telegram_id == tid) = some { profile with balance := b }
  rw [find?_map_invariant _ _ (fun a => by
    by_cases hm : (a.telegram_id == tid) = true
    · simp [hm]
    · simp [hm])]
  have h' : db.profiles.find? (fun p => p.telegram_id == tid) = some profile := h
  rw [h', Option.map_some']
  have := List.find?_some h'
  simp only at this
  rw [if_pos this]

/-- C8 (amended): the visit-reward progress is
`games_visited - visit_rewards_claimed * 5`; claiming succeeds iff the
progress is at least 5, and a successful claim increments
`visit_rewards_claimed` by exactly 1 (dropping the computed progress by
exactly 5) and credits the reward.  An immediate second claim with no new
visits succeeds or fails according to the remaining progress: it fails
iff the original progress was below 10. -/
theorem claimVisitReward_progress_spec
    (coins : Int) (db : DB) (tid : Nat) (stats : UserStats) (profile : Profile)
    (hstats : db.stats.find? (fun s => s.telegram_id == tid) = some stats)
    (hprof : findProfile db tid = some profile) :
    (((stats.games_visited : Int) - (stats.visit_rewards_claimed : Int) * 5 < 5) →
      claimVisitReward coins db tid = (db, .noReward)) ∧
    ((5 : Int) ≤ (stats.games_visited : Int) - (stats.visit_rewards_claimed : Int) * 5 →
      ∃ db1,
        claimVisitReward coins db tid
          = (db1, .ok coins (profile.balance + coins)) ∧
        db1.stats.find? (fun s => s.telegram_id == tid)
          = some { stats with
              visit_rewards_claimed := stats.visit_rewards_claimed + 1 } ∧
        (((stats.games_visited : Int) - (stats.visit_rewards_claimed : Int) * 5 < 10) →
          (claimVisitReward coins db1 tid).2 = .noReward) ∧
        ((10 : Int) ≤ (stats.games_visited : Int) - (stats.visit_rewards_claimed : Int) * 5 →
          (claimVisitReward coins db1 tid).2
            = .ok coins (profile.balance + coins + coins))) := by
  constructor
  · intro hlt
    simp [claimVisitReward, hstats, VISIT_REWARD_EVERY, hlt]
  · intro hge
    have hnotlt : ¬ ((stats.games_visited : Int) -
        (stats.visit_rewards_claimed : Int) * 5 < 5) := not_lt.mpr hge
    have hstats1 : ((updateBalance db tid (profile.balance + coins)).stats.map
        (fun s : UserStats =>
          if s.telegram_id == tid then
            { s with visit_rewards_claimed := s.visit_rewards_claimed + 1 }
          else s)).find? (fun s => s.telegram_id == tid)
        = some { stats with
            visit_rewards_claimed := stats.visit_rewards_claimed + 1 } := by
      rw [updateBalance_stats]
      exact find?_update_stats db.stats tid stats hstats _ (fun s => rfl)
    refine ⟨{ updateBalance db tid (profile.balance + coins) with
        stats := (updateBalance db tid (profile.balance + coins)).stats.map
          (fun s : UserStats =>
            if s.telegram_id == tid then
              { s with visit_rewards_claimed := s.visit_rewards_claimed + 1 }
            else s) }, ?_, ?_, ?_, ?_⟩
    · simp [claimVisitReward, hstats, hprof, VISIT_REWARD_EVERY, hnotlt]
    · exact hstats1
    · intro hlt10
      simp only [claimVisitReward, VISIT_REWARD_EVERY, hstats1]
      split
      · rfl
      · next h =>
        exfalso
        push_cast at h
        linarith
    · intro hge10
      have hprof1 : findProfile
          { updateBalance db tid (profile.balance + coins) with
            stats := (updateBalance db tid (profile.balance + coins)).stats.map
              (fun s : UserStats =>
                if s.telegram_id == tid then
                  { s with visit_rewards_claimed := s.visit_rewards_claimed + 1 }
                else s) } tid
          = some { profile with balance := profile.balance + coins } :=
        findProfile_updateBalance db tid profile hprof (profile.balance + coins)
      simp only [claimVisitReward, VISIT_REWARD_EVERY, hstats1]
      split
      · next h =>
        exfalso
        push_cast at h
        linarith
      · simp only [hprof1]

/-- Closed witness for `claimVisitReward_progress_spec`: 3 visits and no
claims give progress 3 < 5, so the claim is rejected unchanged. -/
theorem claimVisitReward_progress_spec_witness :
    claimVisitReward 30 { emptyDB with
      profiles := [⟨1, 0⟩],
      stats := [⟨1, 3, 0, 0, 0, none, none, none⟩] } 1
    = ({ emptyDB with
         profiles := [⟨1, 0⟩],
         stats := [⟨1, 3, 0, 0, 0, none, none, none⟩] }, .noReward) := by
  exact (claimVisitReward_progress_spec 30 _ 1 ⟨1, 3, 0, 0, 0, none, none, none⟩
    ⟨1, 0⟩ (by decide) (by decide)).1 (by norm_num)

/-- A decidable condition that fails makes the mirroring boolean false. -/
theorem bool_cond_of_not {b : Bool} {P : Prop} (h : b = true ↔ P) (hn : ¬P) :
    b = false := by
  cases hb : b
  · rfl
  · exact absurd (h.mp hb) hn

/-- C9: purchase-achievement claiming evaluates all three thresholds
(1, 3, 5) against `tickets_purchased` and the three independent claim
markers, pays in one single balance credit exactly the sum of the
configured rewards of the thresholds that are reached and still
unclaimed, stamps exactly those thresholds' markers with `now`, and pays
nothing — leaving the database untouched — when no unclaimed threshold is
reached. -/
theorem grantPurchaseAchievementRewards_spec
    (rewards : Nat → Option Int) (r1 r3 r5 : Int)
    (h1 : rewards 1 = some r1) (h3 : rewards 3 = some r3)
    (h5 : rewards 5 = some r5)
    (hp1 : 0 < r1) (hp3 : 0 < r3) (hp5 : 0 < r5)
    (db : DB) (now tid : Nat) (stats : UserStats) (profile : Profile)
    (hstats : db.stats.find? (fun s => s.telegram_id == tid) = some stats)
    (hprof : findProfile db tid = some profile) :
    ∀ due1 due3 due5 : Bool,
    due1 = (decide (stats.tickets_purchased ≥ 1)
      && (stats.purchase_reward_1_claimed_at == none)) →
    due3 = (decide (stats.tickets_purchased ≥ 3)
      && (stats.purchase_reward_3_claimed_at == none)) →
    due5 = (decide (stats.tickets_purchased ≥ 5)
      && (stats.purchase_reward_5_claimed_at == none)) →
    ((due1 || due3 || due5) = false →
      grantPurchaseAchievementRewards rewards db now tid = (db, (0, none))) ∧
    ((due1 || due3 || due5) = true →
      grantPurchaseAchievementRewards rewards db now tid
        = ({ updateBalance db tid (profile.balance
              + ((if due1 then r1 else 0) + (if due3 then r3 else 0)
                 + (if due5 then r5 else 0))) with
            stats := (updateBalance db tid (profile.balance
              + ((if due1 then r1 else 0) + (if due3 then r3 else 0)
                 + (if due5 then r5 else 0)))).stats.map
              (fun s : UserStats =>
                if s.telegram_id == tid then
                  { s with
                    purchase_reward_1_claimed_at :=
                      if due1 then some now
                      else s.purchase_reward_1_claimed_at,
                    purchase_reward_3_claimed_at :=
                      if due3 then some now
                      else s.purchase_reward_3_claimed_at,
                    purchase_reward_5_claimed_at :=
                      if due5 then some now
                      else s.purchase_reward_5_claimed_at }
                else s) },
          ((if due1 then r1 else 0) + (if due3 then r3 else 0)
             + (if due5 then r5 else 0),
           some (profile.balance
             + ((if due1 then r1 else 0) + (if due3 then r3 else 0)
                + (if due5 then r5 else 0)))))) := by
  intro due1 due3 due5 hd1 hd3 hd5
  subst hd1
  subst hd3
  subst hd5
  cases hb1 : (decide (stats.tickets_purchased ≥ 1)
      && (stats.purchase_reward_1_claimed_at == none)) <;>
  cases hb3 : (decide (stats.tickets_purchased ≥ 3)
      && (stats.purchase_reward_3_claimed_at == none)) <;>
  cases hb5 : (decide (stats.tickets_purchased ≥ 5)
      && (stats.purchase_reward_5_claimed_at == none)) <;>
  constructor <;>
  intro hcond <;>
  first
  | (simp at hcond; done)
  | (simp [grantPurchaseAchievementRewards, purchaseRewardCheck, hstats,
       h1, h3, h5, hb1, hb3, hb5]
     done)
  | (simp only [grantPurchaseAchievementRewards, purchaseRewardCheck, hstats,
      h1, h3, h5, hb1, hb3, hb5, eq_self_iff_true, if_true,
      Bool.false_eq_true, if_false,
      Option.getD_some, Option.getD_none, Option.isSome_some,
      Option.isSome_none]
     rw [if_neg (by
       simp only [beq_iff_eq]
       intro hz
       linarith)]
     rw [hprof])

/-- Closed witness for `grantPurchaseAchievementRewards_spec`: a user
with no purchases gets nothing and the database is untouched. -/
theorem grantPurchaseAchievementRewards_spec_witness :
    grantPurchaseAchievementRewards
      (fun t => if t == 1 then some 10 else if t == 3 then some 20
                else if t == 5 then some 30 else none)
      { emptyDB with
        profiles := [⟨1, 0⟩],
        stats := [⟨1, 0, 0, 0, 0, none, none, none⟩] } 9 1
    = ({ emptyDB with
         profiles := [⟨1, 0⟩],
         stats := [⟨1, 0, 0, 0, 0, none, none, none⟩] }, (0, none)) := by
  exact (grantPurchaseAchievementRewards_spec _ 10 20 30 (by decide)
    (by decide) (by decide) (by decide) (by decide) (by decide) _ 9 1
    ⟨1, 0, 0, 0, 0, none, none, none⟩ ⟨1, 0⟩ (by decide) (by decide)
    false false false (by decide) (by decide) (by decide)).1 (by decide)

/-- When every checked candidate collides, the check-then-regenerate loop
ends by returning the first never-checked candidate. -/
theorem eventCodeLoop_all_exist (gen : Nat → String) (ex : String → Bool) :
    ∀ fuel i, (∀ j, j < fuel → ex (gen (i + j)) = true) →
      eventCodeLoop gen ex i fuel = gen (i + fuel) := by
  intro fuel
  induction fuel with
  | zero => intro i _; simp [eventCodeLoop]
  | succ n ih =>
    intro i h
    have h0 : ex (gen i) = true := by
      have := h 0 (Nat.succ_pos n)
      simpa using this
    rw [eventCodeLoop, h0, if_pos rfl, ih (i + 1) (fun j hj => by
      rw [show i + 1 + j = i + (j + 1) from by omega]
      exact h (j + 1) (Nat.succ_lt_succ hj))]
    rw [show i + 1 + n = i + (n + 1) from by omega]

/-- C7 (amended): code issuance retries uniqueness up to a bounded number
of attempts, but only the catalog ticket loop fails hard on exhaustion.
(a) The `/purchase` ticket-insert loop: when all 10 candidates collide
with existing tickets, the request throws an internal error and no ticket
row is stored — though the price was already debited.  (b) The
`POST /admin/events` loop: when every checked candidate collides, the
handler does NOT fail; it inserts the event with the 31st, never-checked,
candidate.  (c) The prize-code loop behaves like (b) with 50 checks. -/
theorem code_generation_exhaustion_spec :
    (∀ (db : DB) (tid : Nat) (itemId : String) (item : CatalogItem)
       (profile : Profile) (gen : Nat → String),
      itemId ≠ "" →
      db.catalog.find? (fun i => i.id == itemId) = some item →
      findProfile db tid = some profile →
      ¬ profile.balance < (getCatalogItemPrice itemId).getD item.price →
      (∀ i, i < 10 → db.tickets.any (fun t => t.code == gen i) = true) →
      purchase noRedeemFails db tid itemId gen
        = (updateBalance db tid
            (profile.balance - (getCatalogItemPrice itemId).getD item.price),
           .internalError)) ∧
    (∀ (db : DB) (gen : Nat → String) (eid : String),
      (∀ j, j < 30 → db.events.any (fun e => e.code == gen j) = true) →
      createEvent db gen eid
        = ({ db with events := db.events ++ [⟨eid, gen 30⟩] }, gen 30)) ∧
    (∀ (db : DB) (gen : Nat → String) (pid : Nat) (amt : Int),
      (∀ j, j < 50 →
        (db.prizeCodes.any (fun p => p.code == gen j)
          || db.tickets.any (fun t => t.code == gen j)) = true) →
      createPrizeCode db gen pid amt
        = ({ db with prizeCodes := db.prizeCodes ++ [⟨pid, gen 50, amt, none⟩] },
           gen 50)) := by
  refine ⟨?_, ?_, ?_⟩
  · intro db tid itemId item profile gen hne hitem hprof hbal hcoll
    have hid : (itemId == "") = false := by simp [hne]
    have hloop : ∀ fuel i, (∀ j, j < fuel →
        db.tickets.any (fun t => t.code == gen (i + j)) = true) →
        ticketInsertAttempts (updateBalance db tid
            (profile.balance - (getCatalogItemPrice itemId).getD item.price))
          tid item.id gen false i fuel
        = (updateBalance db tid
            (profile.balance - (getCatalogItemPrice itemId).getD item.price),
           none) := by
      intro fuel
      induction fuel with
      | zero => intro i _; rfl
      | succ n ih =>
        intro i h
        have h0 : (updateBalance db tid
            (profile.balance - (getCatalogItemPrice itemId).getD item.price)).tickets.any
            (fun t => t.code == gen i) = true := by
          rw [updateBalance_tickets]
          have := h 0 (Nat.succ_pos n)
          simpa using this
        rw [ticketInsertAttempts]
        simp only [Bool.false_eq_true, if_false, h0, if_pos rfl]
        exact ih (i + 1) (fun j hj => by
          rw [show i + 1 + j = i + (j + 1) from by omega]
          exact h (j + 1) (Nat.succ_lt_succ hj))
    have hrun := hloop 10 0 (fun j hj => by simpa using hcoll j hj)
    simp only [purchase, hid, Bool.false_eq_true, if_false, hitem, hprof,
      noRedeemFails]
    rw [if_neg hbal]
    rw [hrun]
  · intro db gen eid hcoll
    have := eventCodeLoop_all_exist gen
      (fun c => db.events.any (fun e => e.code == c)) 30 0
      (fun j hj => by simpa using hcoll j hj)
    simp only [createEvent, generateUniqueEventCode, this]
  · intro db gen pid amt hcoll
    have := eventCodeLoop_all_exist gen
      (fun c => db.prizeCodes.any (fun p => p.code == c)
        || db.tickets.any (fun t => t.code == c)) 50 0
      (fun j hj => by simpa using hcoll j hj)
    simp only [createPrizeCode, this]

/-- Closed witness for `code_generation_exhaustion_spec`: event creation
with a constant generator colliding with the stored code still succeeds,
storing the unchecked 31st candidate. -/
theorem code_generation_exhaustion_spec_witness :
    createEvent { emptyDB with events := [⟨"e1", "ZZZZZ"⟩] }
      (fun _ => "ZZZZZ") "e2"
      = ({ ({ emptyDB with events := [⟨"e1", "ZZZZZ"⟩] } : DB) with
           events := ({ emptyDB with
             events := [⟨"e1", "ZZZZZ"⟩] } : DB).events ++ [⟨"e2", "ZZZZZ"⟩] },
         "ZZZZZ") := by
  exact code_generation_exhaustion_spec.2.1 _ (fun _ => "ZZZZZ") "e2"
    (fun j _ => by simp)

/-- The state `/redeem-purchase-code` leaves behind on success: balance
debited, the fresh ticket appended, the purchase code marked used by the
acting user, and the purchase counter bumped. -/
def redeemSuccessState (db : DB) (now tid : Nat) (row : PurchaseCode)
    (itemId tcode : String) (nb : Int) : DB :=
  incrementUserStat
    { updateBalance db tid nb with
      tickets := (updateBalance db tid nb).tickets
        ++ [⟨(updateBalance db tid nb).tickets.length, tid, itemId, tcode, none⟩],
      purchaseCodes := (updateBalance db tid nb).purchaseCodes.map
        (fun q => if q.id == row.id then
          { q with used_at := some now, used_by_telegram_id := some tid }
        else q) } tid .tickets_purchased

/-- One fresh candidate makes the ticket-insert loop succeed at once. -/
theorem ticketInsertAttempts_insert (db : DB) (tid : Nat) (itemId : String)
    (gen : Nat → String) (fuel i : Nat)
    (h : db.tickets.any (fun t => t.code == gen i) = false) :
    ticketInsertAttempts db tid itemId gen false i (fuel + 1)
      = ({ db with tickets := db.tickets
            ++ [⟨db.tickets.length, tid, itemId, gen i, none⟩] },
         some (gen i)) := by
  rw [ticketInsertAttempts]
  simp [h]

/-- C1: redeeming the same code twice in sequence succeeds exactly once.
For a stored bingo prize code the second attempt answers
"not found or already used" (the lookup filters on `used_at IS NULL`);
for a catalog purchase code the second attempt answers "code already
used"; in both cases the second attempt returns the state produced by the
first redemption completely unchanged (balance and counters included). -/
theorem redeem_twice_succeeds_once :
    (∀ (db : DB) (now now2 tid tid2 : Nat) (code : String) (p : PrizeCode)
       (profile : Profile),
      code.length = 5 →
      (toUpperStr code).front = 'B' →
      prizeLookup db (toUpperStr code) = some p →
      p.code ≠ "B0000" →
      (∀ q ∈ db.prizeCodes, q.code = p.code → q.id = p.id) →
      findProfile db tid = some profile →
      ∃ db1,
        bingoClaim noBingoFails db now tid code
          = (db1, .ok (profile.balance + p.coins_amount) p.coins_amount) ∧
        bingoClaim noBingoFails db1 now2 tid2 code
          = (db1, .notFoundOrUsed)) ∧
    (∀ (db : DB) (now now2 tid tid2 : Nat) (raw code : String)
       (row : PurchaseCode) (item : CatalogItem) (profile : Profile)
       (gen gen2 : Nat → String),
      normalizePurchaseCode raw = some code →
      db.purchaseCodes.find? (fun r => r.code == code) = some row →
      row.used_at = none →
      db.catalog.find? (fun i => i.id == row.catalog_item_id) = some item →
      findProfile db tid = some profile →
      ¬ profile.balance < (getCatalogItemPrice item.id).getD item.price →
      (∀ t ∈ db.tickets, t.code ≠ gen 0) →
      redeemPurchaseCode noRedeemFails db now tid raw gen
        = (redeemSuccessState db now tid row item.id (gen 0)
            (profile.balance - (getCatalogItemPrice item.id).getD item.price),
           .ok (gen 0)
            (profile.balance - (getCatalogItemPrice item.id).getD item.price)) ∧
      redeemPurchaseCode noRedeemFails
          (redeemSuccessState db now tid row item.id (gen 0)
            (profile.balance - (getCatalogItemPrice item.id).getD item.price))
          now2 tid2 raw gen2
        = (redeemSuccessState db now tid row item.id (gen 0)
            (profile.balance - (getCatalogItemPrice item.id).getD item.price),
           .codeAlreadyUsed)) := by
  constructor
  · intro db now now2 tid tid2 code p profile hlen hfront hfind hne huniq hprof
    have hlen1 : (code.length != 5) = false := by simp [hlen]
    have hfront1 : ((toUpperStr code).front != 'B') = false := by simp [hfront]
    have hpred := List.find?_some hfind
    have hpcode : p.code = toUpperStr code := by
      have := (Bool.and_eq_true _ _).mp hpred
      exact beq_iff_eq.mp this.1
    have hprof1 : findProfile (prizeMarkUsed db p.id now) tid = some profile :=
      hprof
    refine ⟨incrementUserStat
        (updateBalance (prizeMarkUsed db p.id now) tid
          (profile.balance + p.coins_amount)) tid .bingo_collected, ?_, ?_⟩
    · simp [bingoClaim, hlen1, hfront1, hfind, bingoCommit, bingoCredit,
        noBingoFails, hprof1, checkAndUnlockAchievements]
    · have hcodes : (incrementUserStat
          (updateBalance (prizeMarkUsed db p.id now) tid
            (profile.balance + p.coins_amount)) tid .bingo_collected).prizeCodes
          = db.prizeCodes.map (fun q =>
              if q.id == p.id then { q with used_at := some now } else q) := by
        rw [incrementUserStat_prizeCodes, updateBalance_prizeCodes]
        rfl
      have hlookup2 : prizeLookup (incrementUserStat
          (updateBalance (prizeMarkUsed db p.id now) tid
            (profile.balance + p.coins_amount)) tid .bingo_collected)
          (toUpperStr code) = none := by
        unfold prizeLookup
        rw [hcodes]
        refine List.find?_eq_none.mpr ?_
        intro x hx
        rcases List.mem_map.mp hx with ⟨q, hq, rfl⟩
        by_cases hid : (q.id == p.id) = true
        · simp [hid]
        · have hqc : q.code ≠ toUpperStr code := by
            intro hc
            exact hid (beq_iff_eq.mpr (huniq q hq (hc.trans hpcode.symm)))
          simp only [hid, Bool.false_eq_true, if_false]
          simp [hqc]
      have hB0 : ((toUpperStr code) != "B0000") = true := by
        have : toUpperStr code ≠ "B0000" := fun h => hne (hpcode.trans h)
        simp [this]
      simp [bingoClaim, hlen1, hfront1, hlookup2, hB0]
  · intro db now now2 tid tid2 raw code row item profile gen gen2
      hnorm hrow hused hitem hprof hbal hfresh
    have husedb : row.used_at.isSome = false := by rw [hused]; rfl
    have hany0 : (updateBalance db tid
        (profile.balance - (getCatalogItemPrice item.id).getD item.price)).tickets.any
        (fun t => t.code == gen 0) = false := by
      rw [updateBalance_tickets]
      refine List.any_eq_false.mpr ?_
      intro t ht
      simpa using hfresh t ht
    constructor
    · simp only [redeemPurchaseCode, hnorm, hrow, husedb, Bool.false_eq_true,
        if_false, hitem, hprof, noRedeemFails]
      rw [if_neg hbal]
      rw [show (10 : Nat) = 9 + 1 from rfl,
        ticketInsertAttempts_insert _ _ _ _ 9 0 hany0]
      simp only [redeemSuccessState, checkAndUnlockAchievements]
    · have hfind2 : (redeemSuccessState db now tid row item.id (gen 0)
          (profile.balance
            - (getCatalogItemPrice item.id).getD item.price)).purchaseCodes.find?
          (fun r => r.code == code)
          = some { row with
              used_at := some now, used_by_telegram_id := some tid } := by
        unfold redeemSuccessState
        rw [incrementUserStat_purchaseCodes]
        show ((updateBalance db tid
            (profile.balance
              - (getCatalogItemPrice item.id).getD item.price)).purchaseCodes.map
            (fun q => if q.id == row.id then
              { q with used_at := some now, used_by_telegram_id := some tid }
            else q)).find? (fun r => r.code == code)
          = some { row with
              used_at := some now, used_by_telegram_id := some tid }
        rw [updateBalance_purchaseCodes]
        rw [find?_map_invariant _ _ (fun a => by
          by_cases hm : (a.id == row.id) = true
          · simp [hm]
          · simp [hm])]
        rw [hrow, Option.map_some']
        simp
      simp [redeemPurchaseCode, hnorm, hfind2]

/-- Closed witness for `redeem_twice_succeeds_once`: a stored prize code
claimed twice. -/
theorem redeem_twice_succeeds_once_witness :
    ∃ db1,
      bingoClaim noBingoFails { emptyDB with
        profiles := [⟨10, 0⟩],
        prizeCodes := [⟨1, "BAAAA", 100, none⟩] } 7 10 "BAAAA"
        = (db1, .ok ((0 : Int) + 100) 100) ∧
      bingoClaim noBingoFails db1 8 10 "BAAAA" = (db1, .notFoundOrUsed) := by
  exact redeem_twice_succeeds_once.1 _ 7 8 10 10 "BAAAA"
    ⟨1, "BAAAA", 100, none⟩ ⟨10, 0⟩ (by decide) (by decide) (by decide)
    (by decide) (by decide) (by decide)

/-! ## Balance nonnegativity (C4) -/

/-- Every stored balance is nonnegative. -/
def balancesNonneg (db : DB) : Prop := ∀ p ∈ db.profiles, 0 ≤ p.balance

/-- Every stored prize amount is nonnegative (all issuance paths store
`REWARD_TYPES` values or `BINGO_REWARD`, which are positive). -/
def prizeAmountsNonneg (db : DB) : Prop :=
  ∀ p ∈ db.prizeCodes, 0 ≤ p.coins_amount

theorem mem_of_findProfile {db : DB} {tid : Nat} {profile : Profile}
    (h : findProfile db tid = some profile) : profile ∈ db.profiles :=
  List.mem_of_find?_eq_some h

theorem balancesNonneg_updateBalance {db : DB} (tid : Nat) {b : Int}
    (hb : balancesNonneg db) (h0 : 0 ≤ b) :
    balancesNonneg (updateBalance db tid b) := by
  intro p hp
  rcases List.mem_map.mp hp with ⟨q, hq, rfl⟩
  by_cases hm : (q.telegram_id == tid) = true
  · simpa [hm] using h0
  · simpa [hm] using hb q hq

theorem balancesNonneg_of_profiles_eq {db db' : DB}
    (h : db'.profiles = db.profiles) (hb : balancesNonneg db) :
    balancesNonneg db' := by
  intro p hp
  exact hb p (h ▸ hp)

/-- The ticket-insert loop never touches `profiles`. -/
theorem ticketInsertAttempts_profiles (db : DB) (tid : Nat) (itemId : String)
    (gen : Nat → String) (fail : Bool) :
    ∀ fuel i,
      ((ticketInsertAttempts db tid itemId gen fail i fuel).1).profiles
        = db.profiles := by
  intro fuel
  induction fuel with
  | zero => intro i; rfl
  | succ n ih =>
    intro i
    rw [ticketInsertAttempts]
    by_cases hf : fail = true
    · rw [if_pos hf]
    · rw [if_neg hf]
      by_cases hc : (db.tickets.any (fun t => t.code == gen i)) = true
      · rw [if_pos hc]
        exact ih (i + 1)
      · rw [if_neg hc]

theorem bingoCredit_balancesNonneg (f : BingoFails) (db : DB) (tid : Nat)
    (coins : Int) (hb : balancesNonneg db) (hc : 0 ≤ coins) :
    balancesNonneg (bingoCredit f db tid coins).1 := by
  unfold bingoCredit
  split
  · exact hb
  · next profile heq =>
    have hmem : profile ∈ db.profiles := by
      by_cases hf : f.profileFetch = true
      · rw [if_pos hf] at heq
        exact absurd heq (by simp)
      · simp only [Bool.not_eq_true] at hf
        rw [hf] at heq
        simp only [Bool.false_eq_true, if_false] at heq
        exact mem_of_findProfile heq
    have hnb : 0 ≤ profile.balance + coins := by
      have := hb profile hmem
      linarith
    split
    · exact hb
    · split
      · exact balancesNonneg_updateBalance tid hb hnb
      · simp only [checkAndUnlockAchievements]
        exact balancesNonneg_of_profiles_eq (incrementUserStat_profiles _ _ _)
          (balancesNonneg_updateBalance tid hb hnb)

theorem bingoClaim_balancesNonneg (f : BingoFails) (db : DB) (now tid : Nat)
    (code : String) (hb : balancesNonneg db) (hp : prizeAmountsNonneg db) :
    balancesNonneg (bingoClaim f db now tid code).1 := by
  unfold bingoClaim
  dsimp only
  split
  · exact hb
  · split
    · exact hb
    · split
      · next p heq =>
        unfold bingoCommit
        split
        · exact hb
        · refine bingoCredit_balancesNonneg _ _ _ _ ?_ ?_
          · exact balancesNonneg_of_profiles_eq rfl hb
          · exact hp p (List.mem_of_find?_eq_some heq)
      · split
        · exact hb
        · exact bingoCredit_balancesNonneg _ _ _ _ hb (by norm_num [BINGO_REWARD])

theorem purchase_balancesNonneg (f : RedeemFails) (db : DB) (tid : Nat)
    (itemId : String) (gen : Nat → String) (hb : balancesNonneg db) :
    balancesNonneg (purchase f db tid itemId gen).1 := by
  unfold purchase
  dsimp only
  split
  · exact hb
  · split
    · exact hb
    · next item _ =>
      split
      · exact hb
      · next profile hprof =>
        split
        · exact hb
        · next hlt =>
          have hnb : 0 ≤ profile.balance
              - (getCatalogItemPrice itemId).getD item.price := by
            have h1 := hb profile (mem_of_findProfile hprof)
            have h2 := not_lt.mp hlt
            linarith
          split
          · exact hb
          · have hdeb : balancesNonneg (updateBalance db tid
                (profile.balance
                  - (getCatalogItemPrice itemId).getD item.price)) :=
              balancesNonneg_updateBalance tid hb hnb
            split
            · next db1e heq =>
              refine balancesNonneg_of_profiles_eq ?_ hdeb
              have := congrArg Prod.fst heq
              simp only at this
              rw [← this, ticketInsertAttempts_profiles]
            · next db2 tcode heq =>
              simp only [checkAndUnlockAchievements]
              refine balancesNonneg_of_profiles_eq ?_ hdeb
              rw [incrementUserStat_profiles]
              have := congrArg Prod.fst heq
              simp only at this
              rw [← this, ticketInsertAttempts_profiles]

theorem redeemPurchaseCode_balancesNonneg (f : RedeemFails) (db : DB)
    (now tid : Nat) (raw : String) (gen : Nat → String)
    (hb : balancesNonneg db) :
    balancesNonneg (redeemPurchaseCode f db now tid raw gen).1 := by
  unfold redeemPurchaseCode
  dsimp only
  split
  · exact hb
  · split
    · exact hb
    · next row _ =>
      split
      · exact hb
      · split
        · exact hb
        · next item _ =>
          split
          · exact hb
          · next profile hprof =>
            split
            · exact hb
            · next hlt =>
              have hnb : 0 ≤ profile.balance
                  - (getCatalogItemPrice item.id).getD item.price := by
                have h1 := hb profile (mem_of_findProfile hprof)
                have h2 := not_lt.mp hlt
                linarith
              split
              · exact hb
              · have hdeb : balancesNonneg (updateBalance db tid
                    (profile.balance
                      - (getCatalogItemPrice item.id).getD item.price)) :=
                  balancesNonneg_updateBalance tid hb hnb
                split
                · next db1e heq =>
                  refine balancesNonneg_of_profiles_eq ?_ hdeb
                  have := congrArg Prod.fst heq
                  simp only at this
                  rw [← this, ticketInsertAttempts_profiles]
                · next db2 tcode heq =>
                  split
                  · refine balancesNonneg_of_profiles_eq ?_ hdeb
                    have := congrArg Prod.fst heq
                    simp only at this
                    rw [← this, ticketInsertAttempts_profiles]
                  · simp only [checkAndUnlockAchievements]
                    refine balancesNonneg_of_profiles_eq ?_ hdeb
                    rw [incrementUserStat_profiles]
                    show db2.profiles = (updateBalance db tid
                      (profile.balance
                        - (getCatalogItemPrice item.id).getD item.price)).profiles
                    have h2 : (ticketInsertAttempts (updateBalance db tid
                        (profile.balance
                          - (getCatalogItemPrice item.id).getD item.price))
                        tid item.id gen f.ticketInsert 0 10).1 = db2 := by
                      rw [heq]
                    rw [← h2, ticketInsertAttempts_profiles]

theorem applyVisitReward_balancesNonneg (db : DB) (tid : Nat)
    (hb : balancesNonneg db) :
    balancesNonneg (applyVisitReward db tid).1 := by
  unfold applyVisitReward
  split
  · exact hb
  · next profile hprof =>
    simp only [checkAndUnlockAchievements]
    refine balancesNonneg_of_profiles_eq (incrementUserStat_profiles _ _ _) ?_
    refine balancesNonneg_updateBalance tid hb ?_
    have := hb profile (mem_of_findProfile hprof)
    norm_num [REGISTRATION_REWARD]
    linarith

theorem registerEvent_balancesNonneg (db : DB) (tid : Nat) (code : String)
    (team_id : Option String) (hb : balancesNonneg db) :
    balancesNonneg (registerEvent db tid code team_id).1 := by
  unfold registerEvent
  dsimp only
  split
  · exact hb
  · split
    · split
      · next nb ce heq =>
        have := applyVisitReward_balancesNonneg db tid hb
        rw [heq] at this
        exact this
      · next heq =>
        have := applyVisitReward_balancesNonneg db tid hb
        rw [heq] at this
        exact this
    · split
      · exact hb
      · next ev hev =>
        split
        · exact hb
        · split
          · exact hb
          · have hins : balancesNonneg { db with
                registrations := db.registrations
                  ++ [(⟨ev.id, tid⟩ : Registration)] } :=
              balancesNonneg_of_profiles_eq rfl hb
            split
            · next nb ce heq =>
              have := applyVisitReward_balancesNonneg _ tid hins
              rw [heq] at this
              exact this
            · next heq =>
              have := applyVisitReward_balancesNonneg _ tid hins
              rw [heq] at this
              exact this

theorem claimVisitReward_balancesNonneg (coins : Int) (db : DB) (tid : Nat)
    (hc : 0 ≤ coins) (hb : balancesNonneg db) :
    balancesNonneg (claimVisitReward coins db tid).1 := by
  unfold claimVisitReward
  dsimp only
  split
  · exact hb
  · split
    · exact hb
    · split
      · exact hb
      · next profile hprof =>
        refine balancesNonneg_of_profiles_eq ?_
          (@balancesNonneg_updateBalance db tid (profile.balance + coins) hb
            (by
              have := hb profile (mem_of_findProfile hprof)
              linarith))
        rfl

theorem grantPurchaseAchievementRewards_balancesNonneg
    (rewards : Nat → Option Int) (db : DB) (now tid : Nat)
    (hr : ∀ t c, rewards t = some c → 0 ≤ c) (hb : balancesNonneg db) :
    balancesNonneg (grantPurchaseAchievementRewards rewards db now tid).1 := by
  unfold grantPurchaseAchievementRewards
  dsimp only
  split
  · exact hb
  · next stats hstats =>
    have hg : ∀ (t : Nat) (m : Option Nat),
        0 ≤ (purchaseRewardCheck rewards stats.tickets_purchased t m).getD 0 := by
      intro t m
      unfold purchaseRewardCheck
      cases hrt : rewards t with
      | none => simp
      | some c =>
        simp only
        split
        · simpa using hr t c hrt
        · simp
    split
    · exact hb
    · split
      · exact hb
      · next profile hprof =>
        refine balancesNonneg_of_profiles_eq rfl
          (balancesNonneg_updateBalance tid hb ?_)
        have hbal := hb profile (mem_of_findProfile hprof)
        have h1 := hg 1 stats.purchase_reward_1_claimed_at
        have h3 := hg 3 stats.purchase_reward_3_claimed_at
        have h5 := hg 5 stats.purchase_reward_5_claimed_at
        linarith

theorem webhookConfirmPurchase_balancesNonneg (db : DB) (now tid : Nat)
    (codeDigits : String) (hb : balancesNonneg db) :
    balancesNonneg (webhookConfirmPurchase db now tid codeDigits).1 := by
  unfold webhookConfirmPurchase
  dsimp only
  split
  · exact hb
  · split
    · exact hb
    · split
      · exact hb
      · split
        · exact hb
        · split
          · exact hb
          · split
            · exact hb
            · next profile hprof =>
              split
              · exact hb
              · next hlt =>
                simp only [checkAndUnlockAchievements]
                refine balancesNonneg_of_profiles_eq
                  (incrementUserStat_profiles _ _ _) ?_
                refine balancesNonneg_of_profiles_eq rfl ?_
                refine balancesNonneg_updateBalance tid hb ?_
                have h1 := hb profile (mem_of_findProfile hprof)
                have h2 := not_lt.mp hlt
                linarith

/-- C4: no balance-mutating operation ever drives a balance below zero.
Every debit path (direct purchase, purchase-code redemption, the webhook
purchase confirmation) checks the balance against the price before
debiting and aborts whole, and every credit path adds a nonnegative
amount, so `balance ≥ 0` is preserved by all modelled operations —
whatever the failure flags. -/
theorem balance_never_negative
    (db : DB) (hb : balancesNonneg db) (hp : prizeAmountsNonneg db) :
    (∀ f now tid code, balancesNonneg (bingoClaim f db now tid code).1) ∧
    (∀ f tid itemId gen, balancesNonneg (purchase f db tid itemId gen).1) ∧
    (∀ f now tid raw gen,
      balancesNonneg (redeemPurchaseCode f db now tid raw gen).1) ∧
    (∀ tid code team_id,
      balancesNonneg (registerEvent db tid code team_id).1) ∧
    (∀ coins, 0 ≤ coins →
      ∀ tid, balancesNonneg (claimVisitReward coins db tid).1) ∧
    (∀ rewards : Nat → Option Int, (∀ t c, rewards t = some c → 0 ≤ c) →
      ∀ now tid,
        balancesNonneg (grantPurchaseAchievementRewards rewards db now tid).1) ∧
    (∀ now tid digits,
      balancesNonneg (webhookConfirmPurchase db now tid digits).1) := by
  refine ⟨?_, ?_, ?_, ?_, ?_, ?_, ?_⟩
  · intro f now tid code
    exact bingoClaim_balancesNonneg f db now tid code hb hp
  · intro f tid itemId gen
    exact purchase_balancesNonneg f db tid itemId gen hb
  · intro f now tid raw gen
    exact redeemPurchaseCode_balancesNonneg f db now tid raw gen hb
  · intro tid code team_id
    exact registerEvent_balancesNonneg db tid code team_id hb
  · intro coins hc tid
    exact claimVisitReward_balancesNonneg coins db tid hc hb
  · intro rewards hr now tid
    exact grantPurchaseAchievementRewards_balancesNonneg rewards db now tid hr hb
  · intro now tid digits
    exact webhookConfirmPurchase_balancesNonneg db now tid digits hb

/-- Closed witness for `balance_never_negative`: after redeeming a test
bingo win from a zero balance, the stored balance is still nonnegative. -/
theorem balance_never_negative_witness :
    balancesNonneg (bingoClaim noBingoFails
      { emptyDB with profiles := [⟨1, 0⟩] } 3 1 "B0000").1 := by
  exact (balance_never_negative { emptyDB with profiles := [⟨1, 0⟩] }
    (by intro p hp; simp at hp; simp [hp])
    (by intro p hp; simp [emptyDB] at hp)).1 noBingoFails 3 1 "B0000"

end Muzloto
